import Mathlib

/-!
Verification of the robustness-interval computations described in the
repository `MadnessInterface.ipynb` notebook.  The notebook states three
closed-form robustness-interval bounds (markdown cells) and contains one
executable statistics cell that aggregates 30 repeated interval computations
with a Student-t widening.  The interval formulas themselves are implemented
in the external `tequila` package, so the calculator methods below are
modelled from the pseudocode of the specification (which matches the markdown
formulas of the notebook); the aggregation cell is embedded directly from the
notebook code.
-/

namespace Robustness

/-- Which side of a robustness interval a validity condition refers to. -/
inductive Side where
| lower
| upper
deriving DecidableEq

/-- Modelled from the spec: error raised by the expectation-value method when
the infidelity `epsilon` exceeds the validity threshold of one side; it carries
the failing side and the maximum permissible epsilon for that side.  The
implementation of the calculator is not part of this repository (it lives in
the external tequila package), so this error type follows the wording of the spec. -/
structure OutOfRangeError where
  side : Side
  maxEpsilon : ℝ

/-- Modelled from the spec: error raised by the gramian methods when a
method-specific precondition fails (non-positive mean for the
gramian-expectation method, epsilon outside its valid range). -/
inductive DomainError where
| nonpositiveMean
| epsilonOutOfRange
deriving DecidableEq

/-- Modelled from the spec: error raised by the aggregator when fewer than two
intervals are supplied (the unbiased sample variance would be undefined). -/
structure InsufficientSamplesError where
  provided : ℕ

/-- Lower bound of the expectation-value method, from the markdown formula of the notebook: `(1 - 2*epsilon)*mean - 2*sqrt(epsilon*(1-epsilon)*(1 - mean^2))`,
with the radicand factor `1 - mean^2` clamped at 0 as the spec requires. -/
noncomputable def expectationLower (mean ε : ℝ) : ℝ :=
  (1 - 2*ε) * mean - 2 * Real.sqrt (ε * (1 - ε) * max 0 (1 - mean*mean))

/-- Upper bound of the expectation-value method, from the markdown formula of the notebook: `(1 - 2*epsilon)*mean + 2*sqrt(epsilon*(1-epsilon)*(1 - mean^2))`. -/
noncomputable def expectationUpper (mean ε : ℝ) : ℝ :=
  (1 - 2*ε) * mean + 2 * Real.sqrt (ε * (1 - ε) * max 0 (1 - mean*mean))

/-- Modelled from the spec: the expectation-value method (bounded observable,
`-1 ≤ A ≤ 1`).  The notebook markdown states the upper bound is valid only
for `epsilon ≤ (1 - mean)/2` and the lower bound only for
`epsilon ≤ (1 + mean)/2`; outside these thresholds the method signals an
`OutOfRangeError` naming the failing side and its maximum permissible epsilon
instead of returning a number.  On success it returns the triple
`(lower, point_estimate, upper)` with `point_estimate = mean`. -/
noncomputable def expectation_interval (mean ε : ℝ) :
    Except OutOfRangeError (ℝ × ℝ × ℝ) :=
  if (1 - mean)/2 < ε then .error ⟨Side.upper, (1 - mean)/2⟩
  else if (1 + mean)/2 < ε then .error ⟨Side.lower, (1 + mean)/2⟩
  else .ok (expectationLower mean ε, mean, expectationUpper mean ε)

/-- Modelled from the spec: the gramian-expectation method (non-negative
observable), which produces only a lower bound
`(1 - 2*epsilon)*mean - 2*sqrt(epsilon*(1-epsilon))*sqrt(variance)
 + epsilon*mean_sq/mean` with `variance = mean_sq - mean^2` clamped at 0.
It fails with `DomainError` if `mean ≤ 0` or `epsilon` is outside `[0, 1]`.
The success value is a single real: no upper bound is produced. -/
noncomputable def gramian_expectation (mean mean_sq ε : ℝ) :
    Except DomainError ℝ :=
  if mean ≤ 0 then .error DomainError.nonpositiveMean
  else if ε < 0 ∨ 1 < ε then .error DomainError.epsilonOutOfRange
  else .ok ((1 - 2*ε) * mean
      - 2 * Real.sqrt (ε * (1 - ε)) * Real.sqrt (max 0 (mean_sq - mean*mean))
      + ε * mean_sq / mean)

/-- Modelled from the spec: the gramian-eigenvalue method (target state assumed
an eigenstate of the observable): `variance = max(0, mean_sq - mean^2)`,
`width = sqrt(variance) * sqrt(epsilon/(1-epsilon))`, interval
`(mean - width, mean, mean + width)`.  It fails with `DomainError` when
`epsilon ≥ 1` (division by zero). -/
noncomputable def eigval_interval (mean mean_sq ε : ℝ) :
    Except DomainError (ℝ × ℝ × ℝ) :=
  if 1 ≤ ε then .error DomainError.epsilonOutOfRange
  else
    .ok (mean - Real.sqrt (max 0 (mean_sq - mean*mean)) * Real.sqrt (ε / (1 - ε)),
         mean,
         mean + Real.sqrt (max 0 (mean_sq - mean*mean)) * Real.sqrt (ε / (1 - ε)))

/-- Sample mean of a list of reals, as computed by `np.mean`: sum divided by
the number of elements. -/
noncomputable def sampleMean (xs : List ℝ) : ℝ :=
  xs.sum / xs.length

/-- Unbiased sample variance of a list of reals, as computed by
`np.var(xs, ddof=1)`: the sum of squared deviations from the sample mean,
divided by `n - 1`. -/
noncomputable def sampleVar (xs : List ℝ) : ℝ :=
  (xs.map (fun x => (x - sampleMean xs)^2)).sum / ((xs.length : ℝ) - 1)

/-- The confidence-interval aggregation cell of the notebook, embedded from the
code.  Given the list of collected `(lower, energy, upper)` triples it computes
`np.mean` of each endpoint sequence and widens the lower/upper means by
`np.sqrt(var/30) * stats.t.ppf(q=0.99, df=29)`, with the trial count 30, the
degrees of freedom 29 and the quantile 0.99 written as literal constants.  The
external `stats.t.ppf` function is passed in as the parameter `tppf`. -/
noncomputable def aggregateCell (tppf : ℝ → ℕ → ℝ) (intervals : List (ℝ × ℝ × ℝ)) :
    ℝ × ℝ × ℝ :=
  let vqe_energy := sampleMean (intervals.map (fun i => i.2.1))
  let lower_bound_mean := sampleMean (intervals.map (fun i => i.1))
  let lower_bound_var := sampleVar (intervals.map (fun i => i.1))
  let lower_bound := lower_bound_mean - Real.sqrt (lower_bound_var / 30) * tppf 0.99 29
  let upper_bound_mean := sampleMean (intervals.map (fun i => i.2.2))
  let upper_bound_var := sampleVar (intervals.map (fun i => i.2.2))
  let upper_bound := upper_bound_mean + Real.sqrt (upper_bound_var / 30) * tppf 0.99 29
  (lower_bound, vqe_energy, upper_bound)

/-- Aggregation formula following the wording of the spec (for comparison with the
notebook cell `aggregateCell`): for `n` supplied intervals it widens the mean
lower/upper bounds by `t * sqrt(sample_variance / n)` where `t` is the
Student-t critical value for `n - 1` degrees of freedom at the requested
confidence level. -/
noncomputable def specAggregate (tppf : ℝ → ℕ → ℝ) (level : ℝ)
    (intervals : List (ℝ × ℝ × ℝ)) : ℝ × ℝ × ℝ :=
  let n := intervals.length
  (sampleMean (intervals.map (fun i => i.1))
     - tppf level (n - 1) * Real.sqrt (sampleVar (intervals.map (fun i => i.1)) / n),
   sampleMean (intervals.map (fun i => i.2.1)),
   sampleMean (intervals.map (fun i => i.2.2))
     + tppf level (n - 1) * Real.sqrt (sampleVar (intervals.map (fun i => i.2.2)) / n))

/-- Modelled from the spec: the aggregator operation.  It requires at least two
intervals and fails with `InsufficientSamplesError` otherwise, before any
interval is produced. -/
noncomputable def aggregate (tppf : ℝ → ℕ → ℝ) (level : ℝ)
    (intervals : List (ℝ × ℝ × ℝ)) :
    Except InsufficientSamplesError (ℝ × ℝ × ℝ) :=
  if intervals.length < 2 then .error ⟨intervals.length⟩
  else .ok (specAggregate tppf level intervals)

/-- Key estimate for the expectation-value method: under the validity
thresholds of both sides, `|epsilon * mean|` is dominated by the square root
appearing in the radius. -/
lemma abs_eps_mul_le_sqrt (m ε : ℝ) (hε : 0 ≤ ε)
    (h1 : ε ≤ (1 - m)/2) (h2 : ε ≤ (1 + m)/2) :
    |ε * m| ≤ Real.sqrt (ε * (1 - ε) * max 0 (1 - m*m)) := by
  have hm1 : -1 ≤ m := by linarith
  have hm2 : m ≤ 1 := by linarith
  have hεhalf : ε ≤ 1/2 := by linarith
  have hmax : max 0 (1 - m*m) = 1 - m*m := max_eq_right (by nlinarith)
  have key : ε ≤ 1 - m*m := by
    rcases le_or_lt 0 m with hm | hm
    · nlinarith
    · nlinarith
  have keysq : (ε*m)^2 ≤ ε * (1 - ε) * (1 - m*m) := by
    nlinarith [mul_nonneg hε (show (0:ℝ) ≤ 1 - m*m - ε by linarith)]
  calc |ε * m| = Real.sqrt ((ε*m)^2) := (Real.sqrt_sq_eq_abs _).symm
    _ ≤ Real.sqrt (ε * (1 - ε) * (1 - m*m)) := Real.sqrt_le_sqrt keysq
    _ = Real.sqrt (ε * (1 - ε) * max 0 (1 - m*m)) := by rw [hmax]

/-- C1: for every method and every input satisfying its preconditions, a
successfully returned triple `(lower, point_estimate, upper)` with
`point_estimate = mean` satisfies `lower ≤ point_estimate ≤ upper`; this
covers the two methods that define both sides (the expectation-value method
and the gramian-eigenvalue method; the gramian-expectation method never
defines an upper side). -/
theorem point_estimate_enclosed :
    (∀ m ε l p u : ℝ, 0 ≤ ε →
      expectation_interval m ε = .ok (l, p, u) → l ≤ p ∧ p ≤ u) ∧
    (∀ m m2 ε l p u : ℝ, 0 ≤ ε →
      eigval_interval m m2 ε = .ok (l, p, u) → l ≤ p ∧ p ≤ u) := by
  constructor
  · intro m ε l p u hε hok
    rw [expectation_interval] at hok
    split_ifs at hok with h1 h2
    simp only [Except.ok.injEq, Prod.mk.injEq] at hok
    obtain ⟨hl, hp, hu⟩ := hok
    subst hl; subst hp; subst hu
    have habs := abs_eps_mul_le_sqrt m ε hε (le_of_not_lt h1) (le_of_not_lt h2)
    have h3 := neg_abs_le (ε * m)
    have h4 := le_abs_self (ε * m)
    unfold expectationLower expectationUpper
    constructor <;> nlinarith
  · intro m m2 ε l p u hε hok
    rw [eigval_interval] at hok
    split_ifs at hok with h1
    simp only [Except.ok.injEq, Prod.mk.injEq] at hok
    obtain ⟨hl, hp, hu⟩ := hok
    subst hl; subst hp; subst hu
    have hw : 0 ≤ Real.sqrt (max 0 (m2 - m*m)) * Real.sqrt (ε / (1 - ε)) :=
      mul_nonneg (Real.sqrt_nonneg _) (Real.sqrt_nonneg _)
    constructor <;> linarith

/-- C1 witness: both enclosure statements evaluated at concrete valid inputs
(`mean = 0, epsilon = 1/10` for the expectation-value method and
`mean = 1/2, mean_sq = 26/100, epsilon = 1/10` for the eigenvalue method). -/
theorem point_estimate_enclosed_witness :
    ((0:ℝ) ≤ 1/10 ∧
      expectation_interval 0 (1/10) =
        .ok (expectationLower 0 (1/10), 0, expectationUpper 0 (1/10)) ∧
      expectationLower 0 (1/10) ≤ 0 ∧ (0:ℝ) ≤ expectationUpper 0 (1/10)) ∧
    ((0:ℝ) ≤ 1/10 ∧
      eigval_interval (1/2) (26/100) (1/10) =
        .ok (1/2 - Real.sqrt (max 0 (26/100 - (1/2)*(1/2))) *
                Real.sqrt ((1/10) / (1 - 1/10)), 1/2,
             1/2 + Real.sqrt (max 0 (26/100 - (1/2)*(1/2))) *
                Real.sqrt ((1/10) / (1 - 1/10))) ∧
      1/2 - Real.sqrt (max 0 (26/100 - (1/2)*(1/2))) *
          Real.sqrt ((1/10) / (1 - 1/10)) ≤ 1/2 ∧
      (1/2:ℝ) ≤ 1/2 + Real.sqrt (max 0 (26/100 - (1/2)*(1/2))) *
          Real.sqrt ((1/10) / (1 - 1/10))) := by
  have hexp : expectation_interval 0 (1/10) =
      .ok (expectationLower 0 (1/10), 0, expectationUpper 0 (1/10)) := by
    rw [expectation_interval, if_neg (by norm_num), if_neg (by norm_num)]
  have heig : eigval_interval (1/2) (26/100) (1/10) =
      .ok (1/2 - Real.sqrt (max 0 (26/100 - (1/2)*(1/2))) *
              Real.sqrt ((1/10) / (1 - 1/10)), 1/2,
           1/2 + Real.sqrt (max 0 (26/100 - (1/2)*(1/2))) *
              Real.sqrt ((1/10) / (1 - 1/10))) := by
    rw [eigval_interval, if_neg (by norm_num)]
  exact ⟨⟨by norm_num, hexp,
      point_estimate_enclosed.1 0 (1/10) _ _ _ (by norm_num) hexp⟩,
    ⟨by norm_num, heig,
      point_estimate_enclosed.2 (1/2) (26/100) (1/10) _ _ _ (by norm_num) heig⟩⟩

/-- C6: for a fixed mean and two infidelities `ε1 ≤ ε2` for which the
expectation-value method defines both sides, the interval width at `ε2` is at
least the width at `ε1`: increasing epsilon never shrinks the width. -/
theorem expectation_width_monotone (m ε1 ε2 l1 p1 u1 l2 p2 u2 : ℝ)
    (hε : 0 ≤ ε1) (h12 : ε1 ≤ ε2)
    (hok1 : expectation_interval m ε1 = .ok (l1, p1, u1))
    (hok2 : expectation_interval m ε2 = .ok (l2, p2, u2)) :
    u1 - l1 ≤ u2 - l2 := by
  rw [expectation_interval] at hok1 hok2
  split_ifs at hok1 with ha hb
  split_ifs at hok2 with hc hd
  simp only [Except.ok.injEq, Prod.mk.injEq] at hok1 hok2
  obtain ⟨hl1, hp1, hu1⟩ := hok1
  obtain ⟨hl2, hp2, hu2⟩ := hok2
  subst hl1; subst hu1; subst hl2; subst hu2
  have hhalf : ε2 ≤ 1/2 := by
    have := le_of_not_lt hc
    have := le_of_not_lt hd
    linarith
  have hprod : ε1 * (1 - ε1) ≤ ε2 * (1 - ε2) := by
    nlinarith [mul_nonneg (sub_nonneg.2 h12) (show (0:ℝ) ≤ 1 - ε1 - ε2 by linarith)]
  have hM : (0:ℝ) ≤ max 0 (1 - m*m) := le_max_left _ _
  have hs := Real.sqrt_le_sqrt (mul_le_mul_of_nonneg_right hprod hM)
  unfold expectationLower expectationUpper
  linarith

/-- C6 witness: width monotonicity at `mean = 0`, `ε1 = 1/10`, `ε2 = 1/5`. -/
theorem expectation_width_monotone_witness :
    (0:ℝ) ≤ 1/10 ∧ (1/10:ℝ) ≤ 1/5 ∧
    expectationUpper 0 (1/10) - expectationLower 0 (1/10) ≤
      expectationUpper 0 (1/5) - expectationLower 0 (1/5) :=
  ⟨by norm_num, by norm_num,
    expectation_width_monotone 0 (1/10) (1/5)
      (expectationLower 0 (1/10)) 0 (expectationUpper 0 (1/10))
      (expectationLower 0 (1/5)) 0 (expectationUpper 0 (1/5))
      (by norm_num) (by norm_num)
      (by rw [expectation_interval, if_neg (by norm_num), if_neg (by norm_num)])
      (by rw [expectation_interval, if_neg (by norm_num), if_neg (by norm_num)])⟩

/-- C7: the expectation-value method signals `OutOfRangeError` exactly when
`epsilon` exceeds `(1 - mean)/2` (upper side) or `(1 + mean)/2` (lower side);
when the upper side fails the error names the upper side with its maximum
permissible epsilon, and when only the lower side fails it names the lower
side with its maximum permissible epsilon. -/
theorem expectation_out_of_range (m ε : ℝ) :
    ((∃ e, expectation_interval m ε = .error e) ↔
      ((1 - m)/2 < ε ∨ (1 + m)/2 < ε)) ∧
    ((1 - m)/2 < ε →
      expectation_interval m ε = .error ⟨Side.upper, (1 - m)/2⟩) ∧
    (¬((1 - m)/2 < ε) → (1 + m)/2 < ε →
      expectation_interval m ε = .error ⟨Side.lower, (1 + m)/2⟩) := by
  refine ⟨⟨fun he => ?_, fun hor => ?_⟩, fun hc => ?_, fun hn hc => ?_⟩
  · by_contra hcon
    push_neg at hcon
    obtain ⟨e, he⟩ := he
    rw [expectation_interval, if_neg (not_lt.2 hcon.1), if_neg (not_lt.2 hcon.2)] at he
    exact Except.noConfusion he
  · rw [expectation_interval]
    rcases hor with h | h
    · rw [if_pos h]; exact ⟨_, rfl⟩
    · by_cases h1 : (1 - m)/2 < ε
      · rw [if_pos h1]; exact ⟨_, rfl⟩
      · rw [if_neg h1, if_pos h]; exact ⟨_, rfl⟩
  · rw [expectation_interval, if_pos hc]
  · rw [expectation_interval, if_neg hn, if_pos hc]

/-- C7 witness: at `mean = 0`, `epsilon = 7/10` the upper-side threshold
`(1 - 0)/2` is exceeded and the method reports the upper side together with
that maximum permissible epsilon. -/
theorem expectation_out_of_range_witness :
    (1 - (0:ℝ))/2 < 7/10 ∧
    expectation_interval 0 (7/10) = .error ⟨Side.upper, (1 - (0:ℝ))/2⟩ :=
  ⟨by norm_num, (expectation_out_of_range 0 (7/10)).2.1 (by norm_num)⟩

/-- C5: for every mean in `[-1, 1]`, the expectation-value method called with
`epsilon = 0` returns `lower = upper = mean` exactly: zero infidelity gives the
zero-width interval at the point estimate. -/
theorem expectation_zero_epsilon (m : ℝ) (hm1 : -1 ≤ m) (hm2 : m ≤ 1) :
    expectation_interval m 0 = .ok (m, m, m) := by
  rw [expectation_interval, if_neg (by linarith), if_neg (by linarith)]
  simp [expectationLower, expectationUpper]

/-- C5 witness: the zero-epsilon property evaluated at `mean = 1/2`. -/
theorem expectation_zero_epsilon_witness :
    (-1 ≤ (1/2 : ℝ) ∧ (1/2 : ℝ) ≤ 1) ∧
      expectation_interval (1/2) 0 = .ok (1/2, 1/2, 1/2) :=
  ⟨⟨by norm_num, by norm_num⟩,
    expectation_zero_epsilon (1/2) (by norm_num) (by norm_num)⟩

/-- C2: general form of the gramian-eigenvalue method and the numeric
round-trip at `mean = 0.5, mean_sq = 0.26, epsilon = 0.05`: the variance is
`0.01`, the width `sqrt(0.01)*sqrt(0.05/0.95)` lies within `10^-5` of
`0.02294`, and the bounds lie within `10^-5` of `0.47706` and `0.52294`. -/
theorem gramian_eigenvalue_roundtrip :
    (∀ m m2 ε : ℝ, ε < 1 →
      eigval_interval m m2 ε =
        .ok (m - Real.sqrt (max 0 (m2 - m*m)) * Real.sqrt (ε / (1 - ε)), m,
             m + Real.sqrt (max 0 (m2 - m*m)) * Real.sqrt (ε / (1 - ε)))) ∧
    max 0 ((26:ℝ)/100 - (1/2)*(1/2)) = 1/100 ∧
    |Real.sqrt (max 0 ((26:ℝ)/100 - (1/2)*(1/2))) *
        Real.sqrt ((5/100) / (1 - 5/100)) - 2294/100000| < 1/100000 ∧
    |(1/2 - Real.sqrt (max 0 ((26:ℝ)/100 - (1/2)*(1/2))) *
        Real.sqrt ((5/100) / (1 - 5/100))) - 47706/100000| < 1/100000 ∧
    |(1/2 + Real.sqrt (max 0 ((26:ℝ)/100 - (1/2)*(1/2))) *
        Real.sqrt ((5/100) / (1 - 5/100))) - 52294/100000| < 1/100000 := by
  have hmax : max 0 ((26:ℝ)/100 - (1/2)*(1/2)) = 1/100 := by
    rw [max_eq_right (show (0:ℝ) ≤ 26/100 - (1/2)*(1/2) by norm_num)]
    norm_num
  have hsq : Real.sqrt ((1:ℝ)/100) = 1/10 := by
    rw [show ((1:ℝ)/100) = (1/10)^2 by norm_num]
    exact Real.sqrt_sq (by norm_num)
  have harg : ((5:ℝ)/100) / (1 - 5/100) = 1/19 := by norm_num
  have hlo : (2293/10000 : ℝ) < Real.sqrt (1/19) :=
    (Real.lt_sqrt (by norm_num)).2 (by norm_num)
  have hhi : Real.sqrt ((1:ℝ)/19) < 2295/10000 :=
    (Real.sqrt_lt' (by norm_num)).2 (by norm_num)
  have hW : Real.sqrt (max 0 ((26:ℝ)/100 - (1/2)*(1/2))) *
      Real.sqrt ((5/100) / (1 - 5/100)) = (1/10) * Real.sqrt (1/19) := by
    rw [hmax, harg, hsq]
  refine ⟨?_, hmax, ?_, ?_, ?_⟩
  · intro m m2 ε hε
    rw [eigval_interval, if_neg (not_le.2 hε)]
  · rw [hW, abs_lt]; constructor <;> nlinarith
  · rw [hW, abs_lt]; constructor <;> nlinarith
  · rw [hW, abs_lt]; constructor <;> nlinarith

/-- C2 witness: the general formula applied at the round-trip inputs
`mean = 1/2, mean_sq = 26/100, epsilon = 5/100`. -/
theorem gramian_eigenvalue_roundtrip_witness :
    (5/100 : ℝ) < 1 ∧
    eigval_interval (1/2) (26/100) (5/100) =
      .ok (1/2 - Real.sqrt (max 0 ((26:ℝ)/100 - (1/2)*(1/2))) *
              Real.sqrt ((5/100) / (1 - 5/100)), 1/2,
           1/2 + Real.sqrt (max 0 ((26:ℝ)/100 - (1/2)*(1/2))) *
              Real.sqrt ((5/100) / (1 - 5/100))) :=
  ⟨by norm_num, gramian_eigenvalue_roundtrip.1 (1/2) (26/100) (5/100) (by norm_num)⟩

/-- C8: the gramian-expectation method fails with `DomainError` exactly when
`mean ≤ 0` or `epsilon` lies outside `[0, 1]`, and otherwise returns only the
lower bound `(1-2ε)·mean - 2·sqrt(ε(1-ε))·sqrt(variance) + ε·mean_sq/mean`
with the variance `mean_sq - mean²` clamped at 0 (the success value is a
single real: no upper bound is produced). -/
theorem gramian_expectation_contract :
    (∀ m m2 ε : ℝ,
      ((∃ e, gramian_expectation m m2 ε = .error e) ↔ (m ≤ 0 ∨ ε < 0 ∨ 1 < ε))) ∧
    (∀ m m2 ε : ℝ, 0 < m → 0 ≤ ε → ε ≤ 1 →
      gramian_expectation m m2 ε =
        .ok ((1 - 2*ε) * m
          - 2 * Real.sqrt (ε * (1 - ε)) * Real.sqrt (max 0 (m2 - m*m))
          + ε * m2 / m)) := by
  constructor
  · intro m m2 ε
    constructor
    · rintro ⟨e, he⟩
      by_contra hcon
      push_neg at hcon
      obtain ⟨h1, h2, h3⟩ := hcon
      rw [gramian_expectation, if_neg (not_le.2 h1),
          if_neg (not_or.2 ⟨not_lt.2 h2, not_lt.2 h3⟩)] at he
      exact Except.noConfusion he
    · intro h
      rw [gramian_expectation]
      rcases h with h | h
      · rw [if_pos h]; exact ⟨_, rfl⟩
      · by_cases hm : m ≤ 0
        · rw [if_pos hm]; exact ⟨_, rfl⟩
        · rw [if_neg hm, if_pos h]; exact ⟨_, rfl⟩
  · intro m m2 ε hm hε1 hε2
    rw [gramian_expectation, if_neg (not_le.2 hm),
        if_neg (not_or.2 ⟨not_lt.2 hε1, not_lt.2 hε2⟩)]

/-- C8 witness: the success branch evaluated at `mean = 1, mean_sq = 2,
epsilon = 1/2`, all preconditions holding. -/
theorem gramian_expectation_contract_witness :
    (0:ℝ) < 1 ∧ (0:ℝ) ≤ 1/2 ∧ (1/2:ℝ) ≤ 1 ∧
    gramian_expectation 1 2 (1/2) =
      .ok ((1 - 2*(1/2)) * 1
        - 2 * Real.sqrt ((1/2) * (1 - 1/2)) * Real.sqrt (max 0 (2 - 1*1))
        + (1/2) * 2 / 1) :=
  ⟨by norm_num, by norm_num, by norm_num,
    gramian_expectation_contract.2 1 2 (1/2) (by norm_num) (by norm_num) (by norm_num)⟩

/-- C9: the aggregator fails with `InsufficientSamplesError` exactly when
fewer than two intervals are supplied, and in that case no interval is
returned (the error is the whole synchronous result). -/
theorem aggregate_insufficient_samples :
    ∀ (tppf : ℝ → ℕ → ℝ) (level : ℝ) (xs : List (ℝ × ℝ × ℝ)),
      ((∃ e, aggregate tppf level xs = .error e) ↔ xs.length < 2) ∧
      ((∃ r, aggregate tppf level xs = .ok r) ↔ 2 ≤ xs.length) := by
  intro tppf level xs
  rw [aggregate]
  by_cases h : xs.length < 2
  · rw [if_pos h]
    exact ⟨⟨fun _ => h, fun _ => ⟨_, rfl⟩⟩,
      ⟨fun hr => by obtain ⟨r, hr⟩ := hr; exact Except.noConfusion hr,
       fun hle => absurd h (not_lt.2 hle)⟩⟩
  · rw [if_neg h]
    exact ⟨⟨fun he => by obtain ⟨e, he⟩ := he; exact Except.noConfusion he,
       fun hlt => absurd hlt h⟩,
      ⟨fun _ => le_of_not_lt h, fun _ => ⟨_, rfl⟩⟩⟩

/-- C9 witness: with an empty interval list the aggregator reports the error
(applied through the characterisation theorem). -/
theorem aggregate_insufficient_samples_witness :
    ∃ e, aggregate (fun q d => (1:ℝ)) (99/100) ([] : List (ℝ × ℝ × ℝ)) = .error e :=
  (aggregate_insufficient_samples (fun q d => (1:ℝ)) (99/100) []).1.2 (by simp)

/-- C4: the aggregation never narrows: for at least two intervals and a
non-negative Student-t critical value, the final lower bound is at most the
mean of the lower endpoints and the final upper bound is at least the mean of
the upper endpoints. -/
theorem aggregation_never_narrows (tppf : ℝ → ℕ → ℝ) (xs : List (ℝ × ℝ × ℝ))
    (hn : 2 ≤ xs.length) (ht : 0 ≤ tppf 0.99 29) :
    (aggregateCell tppf xs).1 ≤ sampleMean (xs.map (fun i => i.1)) ∧
    sampleMean (xs.map (fun i => i.2.2)) ≤ (aggregateCell tppf xs).2.2 := by
  unfold aggregateCell
  constructor
  · exact sub_le_self _ (mul_nonneg (Real.sqrt_nonneg _) ht)
  · exact le_add_of_nonneg_right (mul_nonneg (Real.sqrt_nonneg _) ht)

/-- C4 witness: the three intervals `(0,1,2), (0.1,1.1,2.1), (-0.1,0.9,1.9)`
from the aggregator example in the spec with a positive critical value. -/
theorem aggregation_never_narrows_witness :
    2 ≤ ([((0:ℝ), (1:ℝ), (2:ℝ)), (1/10, 11/10, 21/10), (-(1/10), 9/10, 19/10)] :
          List (ℝ × ℝ × ℝ)).length ∧
    (0:ℝ) ≤ 5/2 ∧
    ((aggregateCell (fun _ _ => (5/2:ℝ))
        [((0:ℝ), (1:ℝ), (2:ℝ)), (1/10, 11/10, 21/10), (-(1/10), 9/10, 19/10)]).1 ≤
      sampleMean (([((0:ℝ), (1:ℝ), (2:ℝ)), (1/10, 11/10, 21/10),
          (-(1/10), 9/10, 19/10)] : List (ℝ × ℝ × ℝ)).map (fun i => i.1)) ∧
     sampleMean (([((0:ℝ), (1:ℝ), (2:ℝ)), (1/10, 11/10, 21/10),
          (-(1/10), 9/10, 19/10)] : List (ℝ × ℝ × ℝ)).map (fun i => i.2.2)) ≤
      (aggregateCell (fun _ _ => (5/2:ℝ))
        [((0:ℝ), (1:ℝ), (2:ℝ)), (1/10, 11/10, 21/10), (-(1/10), 9/10, 19/10)]).2.2) :=
  ⟨by simp, by norm_num,
    aggregation_never_narrows (fun _ _ => (5/2:ℝ))
      [((0:ℝ), (1:ℝ), (2:ℝ)), (1/10, 11/10, 21/10), (-(1/10), 9/10, 19/10)]
      (by simp) (by norm_num)⟩

/-- C10: the notebook aggregation always widens by
`sqrt(sample_variance / 30) * stats.t.ppf(q=0.99, df=29)` — the trial count
30, the degrees of freedom 29 and the quantile 0.99 are fixed constants,
independent of the length of the sequence, and no other value of the external
t-quantile function is consulted (there is no caller-chosen confidence
level). -/
theorem aggregation_constants_hardcoded :
    (∀ (tppf : ℝ → ℕ → ℝ) (xs : List (ℝ × ℝ × ℝ)),
      aggregateCell tppf xs =
        (sampleMean (xs.map (fun i => i.1))
            - Real.sqrt (sampleVar (xs.map (fun i => i.1)) / 30) * tppf 0.99 29,
         sampleMean (xs.map (fun i => i.2.1)),
         sampleMean (xs.map (fun i => i.2.2))
            + Real.sqrt (sampleVar (xs.map (fun i => i.2.2)) / 30) * tppf 0.99 29)) ∧
    (∀ (t1 t2 : ℝ → ℕ → ℝ) (xs : List (ℝ × ℝ × ℝ)),
      t1 0.99 29 = t2 0.99 29 → aggregateCell t1 xs = aggregateCell t2 xs) := by
  constructor
  · intro tppf xs; rfl
  · intro t1 t2 xs h
    unfold aggregateCell
    rw [h]

/-- C10 witness: two external t-quantile functions that differ everywhere
except at `(0.99, 29)` give identical aggregation results. -/
theorem aggregation_constants_hardcoded_witness :
    ((fun _ _ => (3:ℝ)) (0.99:ℝ) (29:ℕ) =
      (fun _ (d:ℕ) => if d = 29 then (3:ℝ) else 0) (0.99:ℝ) (29:ℕ)) ∧
    aggregateCell (fun _ _ => (3:ℝ)) [((0:ℝ), (0:ℝ), (0:ℝ)), (1, 1, 1)] =
      aggregateCell (fun _ (d:ℕ) => if d = 29 then (3:ℝ) else 0)
        [((0:ℝ), (0:ℝ), (0:ℝ)), (1, 1, 1)] :=
  ⟨by norm_num,
    aggregation_constants_hardcoded.2 (fun _ _ => (3:ℝ))
      (fun _ (d:ℕ) => if d = 29 then (3:ℝ) else 0)
      [((0:ℝ), (0:ℝ), (0:ℝ)), (1, 1, 1)] (by norm_num)⟩

/-- C3 counterexample: the notebook aggregation does not compute the
spec-worded formula (Student-t critical value at `n-1` degrees of freedom and
standard error `sqrt(variance/n)`) for a sequence of length 2: with the
t-quantile function that returns its degrees-of-freedom argument, the two
disagree on the intervals `[(0,0,0), (1,1,1)]`. -/
theorem aggregate_formula_counterexample :
    aggregateCell (fun _ d => (d : ℝ)) [((0:ℝ), (0:ℝ), (0:ℝ)), (1, 1, 1)] ≠
      specAggregate (fun _ d => (d : ℝ)) 0.99
        [((0:ℝ), (0:ℝ), (0:ℝ)), (1, 1, 1)] := by
  intro h
  have h1 := congrArg Prod.fst h
  have hmean : sampleMean [(0:ℝ), 1] = 1/2 := by
    norm_num [sampleMean]
  have hvar : sampleVar [(0:ℝ), 1] = 1/2 := by
    norm_num [sampleVar, sampleMean]
  have hq : Real.sqrt ((1:ℝ)/4) = 1/2 := by
    rw [show ((1:ℝ)/4) = (1/2)^2 by norm_num]
    exact Real.sqrt_sq (by norm_num)
  have hs : (1/8 : ℝ) < Real.sqrt (1/60) :=
    (Real.lt_sqrt (by norm_num)).2 (by norm_num)
  have hcode : (aggregateCell (fun _ d => (d : ℝ))
      [((0:ℝ), (0:ℝ), (0:ℝ)), (1, 1, 1)]).1 = 1/2 - Real.sqrt (1/60) * 29 := by
    show sampleMean [(0:ℝ), 1] - Real.sqrt (sampleVar [(0:ℝ), 1] / 30) *
        ((29:ℕ) : ℝ) = 1/2 - Real.sqrt (1/60) * 29
    rw [hmean, hvar]
    norm_num
  have hspec : (specAggregate (fun _ d => (d : ℝ)) 0.99
      [((0:ℝ), (0:ℝ), (0:ℝ)), (1, 1, 1)]).1 = 0 := by
    show sampleMean [(0:ℝ), 1] - ((2 - 1 : ℕ) : ℝ) *
        Real.sqrt (sampleVar [(0:ℝ), 1] / (2:ℕ)) = 0
    rw [hmean, hvar]
    norm_num [hq]
  rw [hcode, hspec] at h1
  nlinarith

/-- C3 amended: the notebook aggregation does compute endpoint-wise sample
means and unbiased sample variances, but widens with the fixed term
`sqrt(variance/30) * t(0.99, 29)`; the spec-worded formula (critical value at
`n-1` degrees of freedom, standard error `sqrt(variance/n)`) is recovered
exactly when 30 intervals are supplied and the requested level is the fixed
one-sided 99%. -/
theorem aggregate_matches_spec_for_thirty (tppf : ℝ → ℕ → ℝ)
    (xs : List (ℝ × ℝ × ℝ)) (hlen : xs.length = 30) :
    aggregateCell tppf xs = specAggregate tppf 0.99 xs := by
  unfold aggregateCell specAggregate
  rw [hlen]
  norm_num [mul_comm]

/-- C3 amended witness: a list of thirty identical intervals. -/
theorem aggregate_matches_spec_for_thirty_witness :
    (List.replicate 30 ((0:ℝ), (0:ℝ), (0:ℝ))).length = 30 ∧
    aggregateCell (fun _ _ => (1:ℝ)) (List.replicate 30 ((0:ℝ), (0:ℝ), (0:ℝ))) =
      specAggregate (fun _ _ => (1:ℝ)) 0.99
        (List.replicate 30 ((0:ℝ), (0:ℝ), (0:ℝ))) :=
  ⟨by simp,
    aggregate_matches_spec_for_thirty (fun _ _ => (1:ℝ))
      (List.replicate 30 ((0:ℝ), (0:ℝ), (0:ℝ))) (by simp)⟩

end Robustness
